import Mathlib

/-!
Shallow embedding of the core of the `omen` oil-spill validation pipeline
(`process_data.py`, `calc_metrics.py`, `Calc_2D_MOE_GeoJSON.py`).

Modelling conventions:
* pandas numeric series become `List ℚ`; elementwise series arithmetic
  becomes `List.zipWith` / `List.map`;
* the pandas reverse cumulative sum `df.loc[::-1, col].cumsum()[::-1]`
  becomes `revCumsum` (reverse, running sum, reverse);
* geometries become finite sets of unit cells (`Finset (ℤ × ℤ)`): the only
  geometric operations the repository performs on them are union,
  intersection and planar area, which the finite-set model supports
  exactly (area = cell count);
* fallible code returns `Except String _`;
* where the zero-denominator behaviour of the Python code matters
  (`calc_area_ss` called on numpy float64 scalars), IEEE special values
  are modelled explicitly by `PyFloat` (finite values are kept exact as
  rationals; the claims under study never exercise float rounding).
-/

namespace Omen

/-- `ModelType`: the `modelType` command-line flag, `'BE'` (best estimate,
deterministic) or `'Prob'` (probabilistic). -/
inductive ModelType where
  | BE : ModelType
  | Prob : ModelType
deriving DecidableEq

/-- `ValType`: the `valType` command-line flag, `'Satellite'` or `'Coastal'`. -/
inductive ValType where
  | Satellite : ValType
  | Coastal : ValType
deriving DecidableEq

/-- Geometry type tags as returned by `geom_type` on a geodataframe row. -/
inductive GeomType where
  | Polygon : GeomType
  | MultiPolygon : GeomType
  | LineString : GeomType
  | MultiLineString : GeomType
  | Point : GeomType
deriving DecidableEq

/-- pandas `Series.cumsum()`: the running sum of a numeric column,
same length as the input. -/
def cumsum : List ℚ → List ℚ
  | [] => []
  | a :: t => a :: (cumsum t).map (a + ·)

/-- The reverse running sum `df.loc[::-1, col].cumsum()[::-1]` used at
`process_data.py:209-211` and `process_data.py:222`: reverse the column,
take the running sum, reverse back. -/
def revCumsum (l : List ℚ) : List ℚ :=
  (cumsum l.reverse).reverse

/-- `model_known["area_full_contour"]` (`process_data.py:209-211`): the full
area enclosed by each contour level, a reverse cumulative sum of the
per-band cutout areas. -/
def area_full_contour_col (contour_cutout_area : List ℚ) : List ℚ :=
  revCumsum contour_cutout_area

/-- `overlap["overlap_full_contour"]` (`process_data.py:222`): the full
overlap area for each contour level, a reverse cumulative sum of the
per-band overlap areas. -/
def overlap_full_contour_col (overlap_area : List ℚ) : List ℚ :=
  revCumsum overlap_area

/-- Python's `round(q, 4)`: round to 4 decimal digits. (Python rounds exact
ties to even; `round` here rounds ties up. The two agree off ties, and no
claim in this development evaluates `round4` at a tie.) -/
def round4 (q : ℚ) : ℚ :=
  ((round (q * 10 ^ 4) : ℤ) : ℚ) / 10 ^ 4

/-- `calc_2DMOE` (`calc_metrics.py:1-37`): componentwise quotients of the
overlap series by the observed and predicted series. The rounded values
`x_out`, `y_out` are computed (the source prints them) but the function
returns the unrounded `x`, `y`. -/
def calc_2DMOE (Aob Apr Aov : List ℚ) : List ℚ × List ℚ :=
  let x := List.zipWith (fun a b => a / b) Aov Aob
  let x_out := x.map round4
  let y := List.zipWith (fun a b => a / b) Aov Apr
  let y_out := y.map round4
  (x, y)

/-- `calc_area_ss` (`calc_metrics.py:40-68`) over exact rationals (the
intended domain, observed area strictly positive): area index
`|Apr - Aob| / Aob`, threshold 1; score `1 - index/1` below the threshold,
`0` at or above it.  The source's `if index < 1 / elif index >= 1` pair is
exhaustive over the rationals, so the `elif` is an `else` here. -/
def calc_area_ss (Aob Apr : ℚ) : ℚ :=
  let Area_index := |Apr - Aob| / Aob
  let A_thr : ℚ := 1
  if Area_index < A_thr then 1 - Area_index / A_thr else 0

/-- The band-count validity check of `read_geojson`
(`process_data.py:71-78`): only when `modelType == "BE"` does the code
assert that the model geodataframe has at most 5 levels (Bonn agreement
thickness code); probabilistic input is not checked. `true` means the
assertion passes. -/
def model_levels_check (modelType : ModelType) (numLevels : ℕ) : Bool :=
  match modelType with
  | .BE => numLevels ≤ 5
  | .Prob => true

/-- `check_geom_types` (`process_data.py:229-248`): inspects
`geom.geom_type[0]`, the type of the geometry in the FIRST row only, and
asserts it is polygon-family for `'Satellite'` and line-family for
`'Coastal'`.  `some b` means the assertion evaluates to `b`; `none` models
the `KeyError` raised by `[0]` on an empty frame.  (The source compares
with `is` on interned string literals, which in CPython coincides with
string equality for these values.) -/
def check_geom_types (geom : List GeomType) (valType : ValType) : Option Bool :=
  match geom.head? with
  | none => none
  | some g0 =>
    match valType with
    | .Satellite => some (g0 == GeomType.MultiPolygon || g0 == GeomType.Polygon)
    | .Coastal => some (g0 == GeomType.MultiLineString || g0 == GeomType.LineString)

/-- A Python/numpy double: a finite value (kept exact as a rational),
an infinity, or NaN. -/
inductive PyFloat where
  | fin : ℚ → PyFloat
  | inf : PyFloat
  | ninf : PyFloat
  | nan : PyFloat
deriving DecidableEq

/-- Float subtraction (the cases reachable in `calc_area_ss`). -/
def psub : PyFloat → PyFloat → PyFloat
  | .fin a, .fin b => .fin (a - b)
  | .fin _, .inf => .ninf
  | .fin _, .ninf => .inf
  | .inf, .fin _ => .inf
  | .ninf, .fin _ => .ninf
  | .inf, .ninf => .inf
  | .ninf, .inf => .ninf
  | .inf, .inf => .nan
  | .ninf, .ninf => .nan
  | _, .nan => .nan
  | .nan, _ => .nan

/-- Float absolute value. -/
def pabs : PyFloat → PyFloat
  | .fin a => .fin |a|
  | .inf => .inf
  | .ninf => .inf
  | .nan => .nan

/-- numpy float64 division: division by zero yields ±infinity (or NaN for
0/0) with a runtime warning, it does not raise. -/
def npdiv : PyFloat → PyFloat → PyFloat
  | .fin a, .fin b =>
    if b = 0 then (if a = 0 then .nan else if 0 < a then .inf else .ninf)
    else .fin (a / b)
  | .fin _, .inf => .fin 0
  | .fin _, .ninf => .fin 0
  | .inf, .fin b => if 0 ≤ b then .inf else .ninf
  | .ninf, .fin b => if 0 ≤ b then .ninf else .inf
  | .inf, .inf => .nan
  | .inf, .ninf => .nan
  | .ninf, .inf => .nan
  | .ninf, .ninf => .nan
  | _, .nan => .nan
  | .nan, _ => .nan

/-- Float strict comparison; any comparison against NaN is false. -/
def plt : PyFloat → PyFloat → Bool
  | .fin a, .fin b => a < b
  | .fin _, .inf => true
  | .fin _, .ninf => false
  | .inf, .fin _ => false
  | .ninf, .fin _ => true
  | .ninf, .inf => true
  | .inf, .ninf => false
  | .inf, .inf => false
  | .ninf, .ninf => false
  | .nan, _ => false
  | _, .nan => false

/-- Float `>=` comparison; any comparison against NaN is false. -/
def pge : PyFloat → PyFloat → Bool
  | .fin a, .fin b => b ≤ a
  | .fin _, .inf => false
  | .fin _, .ninf => true
  | .inf, .fin _ => true
  | .ninf, .fin _ => false
  | .inf, .ninf => true
  | .ninf, .inf => false
  | .inf, .inf => true
  | .ninf, .ninf => true
  | .nan, _ => false
  | _, .nan => false

/-- `calc_area_ss` (`calc_metrics.py:40-68`) as actually invoked from
`Calc_2D_MOE_GeoJSON.py:204` on numpy float64 scalars (`Aob[0]`, `Apr[0]`
of a pandas Series).  If neither the `if` nor the `elif` branch fires
(both comparisons false, which happens only when the index is NaN), the
local `Ass` is never assigned and the `return` raises. -/
def calc_area_ss_float (Aob Apr : PyFloat) : Except String PyFloat :=
  let Area_index := npdiv (pabs (psub Apr Aob)) Aob
  let A_thr : PyFloat := .fin 1
  if plt Area_index A_thr then .ok (psub (.fin 1) (npdiv Area_index A_thr))
  else if pge Area_index A_thr then .ok (.fin 0)
  else .error "UnboundLocalError"

/-- The scalar core of `calc_centroid_ss` (`calc_metrics.py:71-131`): the
centroid distance and the observed length scale are plain Python floats
produced by the geometry library (modelled as exact inputs); dividing by a
zero length scale raises `ZeroDivisionError`, otherwise the centroid index
is thresholded at 1 exactly as in the source.  The centroid and bounding
points also returned by the source are plotting outputs and are omitted. -/
def calc_centroid_ss (centroid_dist obslengthscale : ℚ) : Except String ℚ :=
  if obslengthscale = 0 then .error "ZeroDivisionError"
  else
    let C_index := centroid_dist / obslengthscale
    let C_thr : ℚ := 1
    if C_index < C_thr then .ok (1 - C_index / C_thr) else .ok 0

/-- A planar geometry, modelled as a finite set of unit cells; the
repository only unions, intersects and measures them. -/
abbrev Geom := Finset (ℤ × ℤ)

/-- Planar area of a geometry in the metric projection: one unit per cell. -/
def geomArea (g : Geom) : ℚ := (g.card : ℚ)

/-- One row of the model geodataframe after sorting: a contour level and
its cutout geometry. -/
structure Band where
  contourlev : ℚ
  geometry : Geom
deriving DecidableEq

/-- The detection-mask branch of `calc_poly_overlap`
(`process_data.py:177-191`): when a `noOilFile` is given, the oil
observation and the no-oil mask are concatenated and dissolved into the
single "known observation region" (their union), and the model is clipped
to it with `gpd.overlay(..., how="intersection")`, which keeps only the
rows whose intersection is nonempty; with no mask the model passes
through unchanged. -/
def clip_model_to_known (model : List Band) (oil : Geom) (no_oil : Option Geom) :
    List Band :=
  match no_oil with
  | none => model
  | some mask =>
    let obs_combined := oil ∪ mask
    (model.map (fun b => { b with geometry := b.geometry ∩ obs_combined })).filter
      (fun b => decide (b.geometry ≠ ∅))

/-- `model_known["contour_cutout_area"]` (`process_data.py:202`): each
band's own planar area divided by 10⁶ (m² to km²). -/
def contour_cutout_area (model_known : List Band) : List ℚ :=
  model_known.map (fun b => geomArea b.geometry / 10 ^ 6)

/-- One row of the `overlap` geodataframe built at
`process_data.py:218-222`, carrying the columns `main` reads at
`Calc_2D_MOE_GeoJSON.py:165-167`. -/
structure OverlapRow where
  obs_area : ℚ
  area_full_contour : ℚ
  overlap_full_contour : ℚ
deriving DecidableEq

/-- What the MOE stage of `main` leaves in scope for the skill-score
stage: the series bound to `Aob` and `Apr`, and the MOE pair when it was
computed. -/
structure MOEStageResult where
  Aob : List ℚ
  Apr : List ℚ
  moe : Option (List ℚ × List ℚ)
deriving DecidableEq

/-- The branch of `main` at `Calc_2D_MOE_GeoJSON.py:140-170`: if the
overlap geodataframe is empty, `Aob` and `Apr` are taken from the oil and
model frames and the 2-D MOE calculation is skipped; otherwise all three
series come from the overlap frame and `calc_2DMOE` runs. -/
def moe_stage (oil_obs_area : List ℚ) (model_area_full : List ℚ)
    (overlap : List OverlapRow) : MOEStageResult :=
  if overlap.isEmpty then
    { Aob := oil_obs_area, Apr := model_area_full, moe := none }
  else
    let Aob := overlap.map (·.obs_area)
    let Apr := overlap.map (·.area_full_contour)
    let Aov := overlap.map (·.overlap_full_contour)
    { Aob := Aob, Apr := Apr, moe := some (calc_2DMOE Aob Apr Aov) }

/-- The skill-score stage of `main` (`Calc_2D_MOE_GeoJSON.py:196-211`):
only for Satellite validation of best-estimate output are the Area Skill
Score (from `Aob[0]`, `Apr[0]`) and the Centroid Skill Score computed;
otherwise the stage does nothing. -/
def skill_stage (valType : ValType) (modelType : ModelType) (r : MOEStageResult)
    (centroid_dist obslengthscale : ℚ) : Option (ℚ × Except String ℚ) :=
  match valType, modelType with
  | .Satellite, .BE =>
    some (calc_area_ss (r.Aob.headD 0) (r.Apr.headD 0),
      calc_centroid_ss centroid_dist obslengthscale)
  | _, _ => none

/-! ## Lemmas about the reverse running sum -/

theorem cumsum_append_single (xs : List ℚ) (a : ℚ) :
    cumsum (xs ++ [a]) = cumsum xs ++ [xs.sum + a] := by
  induction xs with
  | nil => simp [cumsum]
  | cons x t ih =>
    simp only [List.cons_append, cumsum, List.append_eq, ih, List.map_append,
      List.map_cons, List.map_nil, List.sum_cons]
    rw [add_assoc]

theorem revCumsum_nil : revCumsum [] = [] := rfl

theorem revCumsum_cons (a : ℚ) (t : List ℚ) :
    revCumsum (a :: t) = (t.sum + a) :: revCumsum t := by
  unfold revCumsum
  rw [List.reverse_cons, cumsum_append_single, List.reverse_append]
  simp [List.sum_reverse]

theorem length_revCumsum (l : List ℚ) : (revCumsum l).length = l.length := by
  induction l with
  | nil => rfl
  | cons a t ih => rw [revCumsum_cons]; simp [ih]

theorem revCumsum_getD (l : List ℚ) (i : ℕ) (hi : i < l.length) :
    (revCumsum l).getD i 0 = (l.drop i).sum := by
  induction l generalizing i with
  | nil => simp at hi
  | cons a t ih =>
    rw [revCumsum_cons]
    cases i with
    | zero => simp [add_comm]
    | succ j =>
      simp only [List.getD_cons_succ, List.drop_succ_cons]
      exact ih j (by simpa using hi)

theorem revCumsum_chain'_ge (l : List ℚ) (h : ∀ x ∈ l, 0 ≤ x) :
    List.Chain' (fun p q => q ≤ p) (revCumsum l) := by
  induction l with
  | nil => simp [revCumsum_nil]
  | cons a t ih =>
    rw [revCumsum_cons]
    have ht : List.Chain' (fun p q => q ≤ p) (revCumsum t) := by
      exact ih (fun x hx => h x (List.mem_cons_of_mem a hx))
    cases t with
    | nil => simp [revCumsum_nil]
    | cons b u =>
      rw [revCumsum_cons] at ht ⊢
      refine List.Chain'.cons ?_ ht
      have ha : 0 ≤ a := h a (List.mem_cons_self a _)
      simp only [List.sum_cons]
      linarith

/-- For a list of (level, area) pairs with strictly increasing levels,
filtering for levels at or above the level at position `i` keeps exactly
the suffix from position `i` on. -/
theorem sorted_filter_ge_eq_drop (l : List (ℚ × ℚ))
    (hs : List.Sorted (· < ·) (l.map Prod.fst)) (i : ℕ) (hi : i < l.length) :
    l.filter (fun b => decide ((l.getD i (0, 0)).1 ≤ b.1)) = l.drop i := by
  induction l generalizing i with
  | nil => simp at hi
  | cons a t ih =>
    have hhead : ∀ b ∈ t, a.1 < b.1 := by
      intro b hb
      have := List.rel_of_sorted_cons (by simpa using hs) b.1
        (List.mem_map_of_mem Prod.fst hb)
      exact this
    have htail : List.Sorted (· < ·) (t.map Prod.fst) :=
      (List.sorted_cons.mp (by simpa using hs)).2
    cases i with
    | zero =>
      simp only [List.getD_cons_zero, List.drop_zero, List.filter_cons]
      rw [if_pos (by simp)]
      congr 1
      rw [List.filter_eq_self]
      intro b hb
      exact decide_eq_true (le_of_lt (hhead b hb))
    | succ j =>
      have hj : j < t.length := by simpa using hi
      have hmem : t.getD j (0, 0) ∈ t := by
        rw [List.getD_eq_getElem t (0, 0) hj]
        exact List.getElem_mem hj
      simp only [List.getD_cons_succ, List.drop_succ_cons, List.filter_cons]
      rw [if_neg (by simpa using not_le.mpr (hhead _ hmem))]
      exact ih htail j hj

/-! ## Claim theorems -/

/-- C1: for any level-sorted sequences of contour bands and of overlap
bands, each with non-negative areas, the reverse-cumulative
`area_full_contour` and `overlap_full_contour` columns are monotonically
non-increasing between adjacent levels. -/
theorem c1_cumulative_monotone (bands overlapRows : List (ℚ × ℚ))
    (hbs : List.Sorted (· < ·) (bands.map Prod.fst))
    (hos : List.Sorted (· < ·) (overlapRows.map Prod.fst))
    (hba : ∀ b ∈ bands, 0 ≤ b.2) (hoa : ∀ b ∈ overlapRows, 0 ≤ b.2) :
    List.Chain' (fun p q => q ≤ p) (area_full_contour_col (bands.map Prod.snd)) ∧
    List.Chain' (fun p q => q ≤ p)
      (overlap_full_contour_col (overlapRows.map Prod.snd)) := by
  constructor
  · exact revCumsum_chain'_ge _ (by
      intro x hx
      obtain ⟨b, hb, rfl⟩ := List.mem_map.mp hx
      exact hba b hb)
  · exact revCumsum_chain'_ge _ (by
      intro x hx
      obtain ⟨b, hb, rfl⟩ := List.mem_map.mp hx
      exact hoa b hb)

theorem c1_witness :
    (List.Sorted (· < ·) (([((1 : ℚ), (2 : ℚ)), (2, 3)]).map Prod.fst) ∧
      List.Sorted (· < ·) (([((1 : ℚ), (1 : ℚ))]).map Prod.fst)) ∧
    (List.Chain' (fun p q => q ≤ p)
        (area_full_contour_col (([((1 : ℚ), (2 : ℚ)), (2, 3)]).map Prod.snd)) ∧
      List.Chain' (fun p q => q ≤ p)
        (overlap_full_contour_col (([((1 : ℚ), (1 : ℚ))]).map Prod.snd))) :=
  ⟨⟨by decide, by decide⟩,
    c1_cumulative_monotone [((1 : ℚ), (2 : ℚ)), (2, 3)] [((1 : ℚ), (1 : ℚ))]
      (by decide) (by decide) (by decide) (by decide)⟩

/-- C2: for bands sorted by strictly ascending level, the full contour
area at position `i` equals the sum of the cutout areas of all bands
whose level is at least the level at position `i`; and for a single-band
(deterministic) collection the full contour area is that band's own
cutout area. -/
theorem c2_full_contour_is_suffix_sum (bands : List (ℚ × ℚ))
    (hs : List.Sorted (· < ·) (bands.map Prod.fst)) :
    (∀ i, i < bands.length →
      (area_full_contour_col (bands.map Prod.snd)).getD i 0 =
        ((bands.filter
          (fun b => decide ((bands.getD i (0, 0)).1 ≤ b.1))).map Prod.snd).sum) ∧
    (∀ a : ℚ, area_full_contour_col [a] = [a]) := by
  constructor
  · intro i hi
    rw [area_full_contour_col,
      revCumsum_getD (bands.map Prod.snd) i (by simpa using hi),
      sorted_filter_ge_eq_drop bands hs i hi, ← List.map_drop]
  · intro a
    rw [area_full_contour_col, revCumsum_cons, revCumsum_nil]
    simp

theorem c2_witness :
    List.Sorted (· < ·) (([((1 : ℚ), (2 : ℚ)), (2, 3)]).map Prod.fst) ∧
    (area_full_contour_col (([((1 : ℚ), (2 : ℚ)), (2, 3)]).map Prod.snd)).getD 0 0 =
      (([((1 : ℚ), (2 : ℚ)), (2, 3)].filter
        (fun b => decide ((([((1 : ℚ), (2 : ℚ)), (2, 3)]).getD 0 (0, 0)).1 ≤ b.1))).map
        Prod.snd).sum :=
  ⟨by decide,
    (c2_full_contour_is_suffix_sum [((1 : ℚ), (2 : ℚ)), (2, 3)] (by decide)).1 0
      (by decide)⟩

/-- C3 counterexample: `calc_2DMOE` applied to observed 3, predicted 3,
overlap 2 returns the x component 2/3 unrounded, not the 4-decimal
rounding 0.6667 the claim says is returned. -/
theorem c3_counterexample :
    (calc_2DMOE [3] [3] [2]).1 ≠ [round4 ((2 : ℚ) / 3)] := by
  intro h
  have h0 : ((2 : ℚ) / 3) = round4 ((2 : ℚ) / 3) := by
    have := List.head_eq_of_cons_eq h
    simpa [calc_2DMOE] using this
  rw [show round4 ((2 : ℚ) / 3) = 6667 / 10000 from by
    norm_num [round4, round_eq]] at h0
  norm_num at h0

/-- C3 amended: for nonzero observed and predicted areas, `calc_2DMOE`
returns `(overlap / observed, overlap / predicted)` unrounded; the
4-decimal rounding is applied only to the values it prints. -/
theorem c3_moe_unrounded (Aob Apr Aov : ℚ) (hob : Aob ≠ 0) (hpr : Apr ≠ 0) :
    calc_2DMOE [Aob] [Apr] [Aov] = ([Aov / Aob], [Aov / Apr]) := rfl

theorem c3_witness :
    (3 : ℚ) ≠ 0 ∧ calc_2DMOE [(3 : ℚ)] [3] [2] = ([(2 : ℚ) / 3], [(2 : ℚ) / 3]) :=
  ⟨by norm_num, c3_moe_unrounded 3 3 2 (by norm_num) (by norm_num)⟩

/-- C4: for positive observed area, the Area Skill Score is
`1 - |predicted - observed| / observed` when that index is below the
threshold 1 and `0` when the index is at or above it; in particular
(100, 200) scores 0 and (100, 150) scores 1/2. -/
theorem c4_area_skill_score (Aob Apr : ℚ) (h : 0 < Aob) :
    (|Apr - Aob| / Aob < 1 → calc_area_ss Aob Apr = 1 - |Apr - Aob| / Aob) ∧
    (1 ≤ |Apr - Aob| / Aob → calc_area_ss Aob Apr = 0) ∧
    calc_area_ss 100 200 = 0 ∧ calc_area_ss 100 150 = 1 / 2 := by
  refine ⟨?_, ?_, by norm_num [calc_area_ss], by norm_num [calc_area_ss, abs]⟩
  · intro hlt
    simp [calc_area_ss, hlt]
  · intro hge
    simp [calc_area_ss, not_lt.mpr hge, not_lt_of_le hge]

theorem c4_witness :
    (0 : ℚ) < 100 ∧
    ((|(150 : ℚ) - 100| / 100 < 1 →
        calc_area_ss 100 150 = 1 - |(150 : ℚ) - 100| / 100) ∧
      (1 ≤ |(150 : ℚ) - 100| / 100 → calc_area_ss 100 150 = 0) ∧
      calc_area_ss 100 200 = 0 ∧ calc_area_ss 100 150 = 1 / 2) :=
  ⟨by norm_num, c4_area_skill_score 100 150 (by norm_num)⟩

/-- C5 counterexample: a probabilistic (`'Prob'`) model collection with 6
bands passes `read_geojson`'s band-count check — the claim that it fails
with a schema violation is false on the code. -/
theorem c5_counterexample : model_levels_check ModelType.Prob 6 = true := rfl

/-- C5 amended: the 5-band limit is enforced only for deterministic
(`'BE'`) model collections — a `'BE'` collection with more than 5 bands
fails the check, while a probabilistic collection of any size passes. -/
theorem c5_band_limit_be_only :
    (∀ n : ℕ, 5 < n → model_levels_check ModelType.BE n = false) ∧
    (∀ n : ℕ, model_levels_check ModelType.Prob n = true) := by
  constructor
  · intro n hn
    simp [model_levels_check, Nat.not_le.mpr hn]
  · intro n
    rfl

theorem c5_witness :
    model_levels_check ModelType.BE 6 = false ∧
    model_levels_check ModelType.Prob 6 = true :=
  ⟨c5_band_limit_be_only.1 6 (by decide), c5_band_limit_be_only.2 6⟩

/-- C6 counterexample: in Satellite mode a collection whose first geometry
is a Polygon but whose second is a LineString (wrong family) still passes
`check_geom_types` — the claim that every geometry is checked and any
wrong-family geometry fails is false on the code. -/
theorem c6_counterexample :
    check_geom_types [GeomType.Polygon, GeomType.LineString] ValType.Satellite =
      some true := rfl

/-- C6 amended: validation inspects only the first geometry of each
collection: the check passes exactly when the geometry at index 0 is
polygon-family in Satellite mode, line-family in Coastal mode; the
remaining geometries are never inspected. -/
theorem c6_only_first_geometry_checked (g0 : GeomType) (rest : List GeomType) :
    check_geom_types (g0 :: rest) ValType.Satellite =
      some (g0 == GeomType.MultiPolygon || g0 == GeomType.Polygon) ∧
    check_geom_types (g0 :: rest) ValType.Coastal =
      some (g0 == GeomType.MultiLineString || g0 == GeomType.LineString) :=
  ⟨rfl, rfl⟩

/-- C7 counterexample: `calc_area_ss` on numpy floats with observed area 0
and predicted area 100 does not fail — the division yields infinity, the
area index compares `>= 1`, and the score 0 is returned. -/
theorem c7_counterexample :
    calc_area_ss_float (PyFloat.fin 0) (PyFloat.fin 100) =
      Except.ok (PyFloat.fin 0) := by
  norm_num [calc_area_ss_float, psub, pabs, npdiv, plt, pge]

/-- C7 amended: the Centroid Skill Score fails fast with a
`ZeroDivisionError` on a zero observed length-scale, but the Area Skill
Score does not fail on a zero observed area: the numpy float division
produces infinity and the returned score is 0 for any positive predicted
area (no dedicated degenerate-input error exists in the code). -/
theorem c7_degenerate_denominators (d Apr : ℚ) (hpr : 0 < Apr) :
    calc_centroid_ss d 0 = Except.error "ZeroDivisionError" ∧
    calc_area_ss_float (PyFloat.fin 0) (PyFloat.fin Apr) =
      Except.ok (PyFloat.fin 0) := by
  constructor
  · rfl
  · have habs : |Apr - 0| = Apr := by
      rw [sub_zero, abs_of_pos hpr]
    have hne : ¬ Apr = 0 := ne_of_gt hpr
    simp [calc_area_ss_float, psub, pabs, npdiv, habs, hne, hpr, plt, pge]

theorem c7_witness :
    (0 : ℚ) < 100 ∧
    (calc_centroid_ss 7 0 = Except.error "ZeroDivisionError" ∧
      calc_area_ss_float (PyFloat.fin 0) (PyFloat.fin 100) =
        Except.ok (PyFloat.fin 0)) :=
  ⟨by norm_num, c7_degenerate_denominators 7 100 (by norm_num)⟩

/-- C8: when the overlap geodataframe is empty, `main` skips the 2-D MOE
computation (no MOE pair is produced) as a handled, non-fatal branch,
while `Aob` is bound to the oil frame's observed area and `Apr` to the
model frame's cumulative full-contour areas, both still available
downstream. -/
theorem c8_no_overlap_skips_moe (oil_obs_area model_area_full : List ℚ)
    (overlap : List OverlapRow) (h : overlap.isEmpty = true) :
    (moe_stage oil_obs_area model_area_full overlap).moe = none ∧
    (moe_stage oil_obs_area model_area_full overlap).Aob = oil_obs_area ∧
    (moe_stage oil_obs_area model_area_full overlap).Apr = model_area_full := by
  simp [moe_stage, h]

theorem c8_witness :
    (([] : List OverlapRow).isEmpty = true) ∧
    ((moe_stage [100] [50] []).moe = none ∧
      (moe_stage [100] [50] []).Aob = [100] ∧
      (moe_stage [100] [50] []).Apr = [50]) :=
  ⟨rfl, c8_no_overlap_skips_moe [100] [50] [] rfl⟩

/-- C9 counterexample: a single model band coinciding with a one-cell
observation, clipped against an EMPTY detection mask, keeps its full
cutout area 1/10⁶ ≠ 0 — the clip target is the union of the observation
and the mask, so an empty mask alone does not zero the areas. -/
theorem c9_counterexample :
    contour_cutout_area
        (clip_model_to_known [⟨1, {((0 : ℤ), (0 : ℤ))}⟩] {((0 : ℤ), (0 : ℤ))}
          (some ∅)) =
      [1 / 10 ^ 6] ∧ ((1 : ℚ) / 10 ^ 6) ≠ 0 := by
  constructor
  · have h : clip_model_to_known [⟨1, {((0 : ℤ), (0 : ℤ))}⟩] {((0 : ℤ), (0 : ℤ))}
        (some ∅) = [⟨1, {((0 : ℤ), (0 : ℤ))}⟩] := by
      simp [clip_model_to_known]
    rw [h]
    simp [contour_cutout_area, geomArea]
  · norm_num

/-- C9 amended: the model bands are clipped against the union of the
observation region and the detection mask; when that union is empty
(empty mask AND empty observation) every band's intersection is empty and
is dropped by the overlay, so the clipped collection, its cutout-area
column and its cumulative full-contour column are all empty — no nonzero
area remains. -/
theorem c9_empty_known_region_clips_all (model : List Band) :
    clip_model_to_known model ∅ (some ∅) = [] ∧
    contour_cutout_area (clip_model_to_known model ∅ (some ∅)) = [] ∧
    area_full_contour_col
      (contour_cutout_area (clip_model_to_known model ∅ (some ∅))) = [] := by
  have h : clip_model_to_known model ∅ (some ∅) = [] := by
    simp only [clip_model_to_known]
    rw [List.filter_eq_nil_iff]
    intro b hb
    obtain ⟨c, _, rfl⟩ := List.mem_map.mp hb
    simp
  refine ⟨h, ?_, ?_⟩
  · rw [h]; rfl
  · rw [h]; rfl

/-- C10: even when the overlap is empty (MOE skipped), a Satellite
validation of best-estimate (`'BE'`) output still computes the Area Skill
Score from the dissolved observation's area and the model's first
cumulative full-contour area, and the Centroid Skill Score from the
centroid distance and observed length scale. -/
theorem c10_skill_scores_despite_no_overlap (oil_obs_area model_area_full : List ℚ)
    (d len : ℚ) (overlap : List OverlapRow) (h : overlap.isEmpty = true) :
    (moe_stage oil_obs_area model_area_full overlap).moe = none ∧
    skill_stage ValType.Satellite ModelType.BE
        (moe_stage oil_obs_area model_area_full overlap) d len =
      some (calc_area_ss (oil_obs_area.headD 0) (model_area_full.headD 0),
        calc_centroid_ss d len) := by
  constructor
  · simp [moe_stage, h]
  · simp [skill_stage, moe_stage, h]

theorem c10_witness :
    (([] : List OverlapRow).isEmpty = true) ∧
    ((moe_stage [100] [50] []).moe = none ∧
      skill_stage ValType.Satellite ModelType.BE (moe_stage [100] [50] []) 7 10 =
        some (calc_area_ss (([(100 : ℚ)]).headD 0) (([(50 : ℚ)]).headD 0),
          calc_centroid_ss 7 10)) :=
  ⟨rfl, c10_skill_scores_despite_no_overlap [100] [50] 7 10 [] rfl⟩

end Omen
